import Mathlib

/-!
# Verification of the autolysis pipeline (src/autolysis.py)

A shallow embedding of the autolysis script: encoding detection
(`load_data`), dataset analysis (`analyze_dataset`), visualization
generation (`generate_visualizations`), README generation
(`generate_readme`), the LLM narration call (`query_llm`), and the `main`
entry point.  File contents are byte lists, data frames are lists of
columns, the HTTP interaction is an abstract outcome value, and `main` is
a function from run inputs to an outcome plus a record of the files it
wrote.
-/

namespace Autolysis

/-! ## Encoding detection (`load_data`, src/autolysis.py lines 17-36)

The script tries, in order, the Python codecs `utf-8`, `latin1`,
`ISO-8859-1`, `windows-1252`; for each it opens the file and reads it
fully, returning the first codec that raises no `UnicodeDecodeError`, and
raising `ValueError` when all four fail.  We model a file's contents as
its list of bytes and each codec by its decodability predicate:

* `utf-8`: the standard strict UTF-8 validation (no surrogates, no
  overlong forms, max U+10FFFF), exactly what Python's strict utf-8 codec
  accepts;
* `latin1` and `ISO-8859-1`: aliases of the same Python codec, which maps
  every byte, so decoding never fails;
* `windows-1252`: Python's cp1252 table leaves bytes 0x81, 0x8D, 0x8F,
  0x90, 0x9D undefined, and decoding fails exactly when one occurs.
-/

/-- A continuation byte of a UTF-8 multi-byte sequence: 0x80-0xBF. -/
def contB (b : Nat) : Bool := 0x80 ≤ b && b ≤ 0xBF

/-- Strict UTF-8 validity of a byte sequence (what Python's `utf-8` codec
accepts without error). -/
def utf8Decodes : List Nat → Bool
  | [] => true
  | b :: rest =>
    if b < 0x80 then utf8Decodes rest
    else if 0xC2 ≤ b && b ≤ 0xDF then
      match rest with
      | c1 :: r => contB c1 && utf8Decodes r
      | [] => false
    else if b == 0xE0 then
      match rest with
      | c1 :: c2 :: r => (0xA0 ≤ c1 && c1 ≤ 0xBF) && contB c2 && utf8Decodes r
      | _ => false
    else if (0xE1 ≤ b && b ≤ 0xEC) || (0xEE ≤ b && b ≤ 0xEF) then
      match rest with
      | c1 :: c2 :: r => contB c1 && contB c2 && utf8Decodes r
      | _ => false
    else if b == 0xED then
      match rest with
      | c1 :: c2 :: r => (0x80 ≤ c1 && c1 ≤ 0x9F) && contB c2 && utf8Decodes r
      | _ => false
    else if b == 0xF0 then
      match rest with
      | c1 :: c2 :: c3 :: r =>
        (0x90 ≤ c1 && c1 ≤ 0xBF) && contB c2 && contB c3 && utf8Decodes r
      | _ => false
    else if 0xF1 ≤ b && b ≤ 0xF3 then
      match rest with
      | c1 :: c2 :: c3 :: r => contB c1 && contB c2 && contB c3 && utf8Decodes r
      | _ => false
    else if b == 0xF4 then
      match rest with
      | c1 :: c2 :: c3 :: r =>
        (0x80 ≤ c1 && c1 ≤ 0x8F) && contB c2 && contB c3 && utf8Decodes r
      | _ => false
    else false

/-- The four candidate encodings of `load_data`, in source order. -/
inductive Encoding
  | utf8
  | latin1
  | iso88591
  | windows1252
deriving DecidableEq

/-- Whether a byte sequence decodes without error under a codec. -/
def decodes : Encoding → List Nat → Bool
  | .utf8, bs => utf8Decodes bs
  | .latin1, _ => true
  | .iso88591, _ => true
  | .windows1252, bs =>
    bs.all fun b => b ≠ 0x81 && b ≠ 0x8D && b ≠ 0x8F && b ≠ 0x90 && b ≠ 0x9D

/-- The candidate list `['utf-8', 'latin1', 'ISO-8859-1', 'windows-1252']`
(src/autolysis.py line 28), in the exact source order. -/
def encodings : List Encoding :=
  [.utf8, .latin1, .iso88591, .windows1252]

/-- Position of an encoding in the fixed priority order. -/
def priority : Encoding → Nat
  | .utf8 => 0
  | .latin1 => 1
  | .iso88591 => 2
  | .windows1252 => 3

/-- The `for encoding in encodings: try ... except UnicodeDecodeError`
loop of `load_data`: return the first candidate that decodes, else fall
through. -/
def tryEncodings : List Encoding → List Nat → Option Encoding
  | [], _ => none
  | e :: rest, bs => if decodes e bs then some e else tryEncodings rest bs

/-- The function `load_data` (src/autolysis.py lines 17-36) on the contents of a
readable file: `some e` models returning encoding `e`, `none` models the
final `raise ValueError`. -/
def load_data (bs : List Nat) : Option Encoding :=
  tryEncodings encodings bs

/-! ## The data model (`analyze_dataset`, src/autolysis.py lines 48-67)

`pd.read_csv` yields a `DataFrame`: an ordered list of named, typed
columns whose entries may be null (`None` here models a pandas NaN / null
entry).  `analyze_dataset` builds the summary dictionary; the claims
consume its `columns` and `missing_values` fields (the `dtypes` and
`summary_stats` entries are serialized into the LLM prompt only and never
inspected by the pipeline, so they are carried as the column dtypes and
otherwise left opaque). -/

/-- A pandas column dtype, as far as the pipeline distinguishes them:
numeric (participates in `df.corr(numeric_only=True)`) or not. -/
inductive Dtype
  | numeric
  | object
deriving DecidableEq

/-- One column of a loaded data frame: name, dtype, and entries in row
order, `none` marking a null entry. -/
structure Column where
  name : String
  dtype : Dtype
  entries : List (Option String)
deriving DecidableEq

/-- A loaded data frame: columns in source-file order. -/
structure DataFrame where
  cols : List Column
deriving DecidableEq

/-- The row count of a data frame (all columns have this length in a
well-formed frame). -/
def DataFrame.nrows (df : DataFrame) : Nat :=
  match df.cols with
  | [] => 0
  | c :: _ => c.entries.length

/-- The value of `df.isnull().sum()` for one column: the number of null entries. -/
def missingCount (c : Column) : Nat :=
  c.entries.countP fun v => v.isNone

/-- The value of `df[col].count()`: the number of non-null entries of a column. -/
def nonNull (c : Column) : Nat :=
  c.entries.countP fun v => v.isSome

/-- The summary dictionary built by `analyze_dataset`
(src/autolysis.py lines 61-66): `"columns": list(df.columns)` and
`"missing_values": df.isnull().sum().to_dict()`, with dict entries in
column order. -/
structure Summary where
  columns : List String
  missing_values : List (String × Nat)
deriving DecidableEq

/-- The summary construction of `analyze_dataset`. -/
def mkSummary (df : DataFrame) : Summary :=
  { columns := df.cols.map Column.name
    missing_values := df.cols.map fun c => (c.name, missingCount c) }

/-- Outcome of `pd.read_csv` on the input file: a data frame, or a raised
parse failure (`EmptyDataError` for an empty file, `ParserError` for a
malformed one).  The parser itself is a pandas library call, so the
outcome is an input of the run model. -/
inductive CsvParse
  | ok (df : DataFrame)
  | parseError (msg : String)
deriving DecidableEq

/-- The function `analyze_dataset` (src/autolysis.py lines 48-67): re-detects the
encoding via `load_data` (an undecodable file raises `ValueError`), then
parses with `pd.read_csv` (a missing/empty/malformed file raises), then
builds the summary dictionary.  `Except.error` models an uncaught raised
exception. -/
def analyze_dataset (bs : List Nat) (parse : CsvParse) :
    Except String (DataFrame × Summary) :=
  match load_data bs with
  | none => .error "ValueError: could not decode"
  | some _ =>
    match parse with
    | .parseError m => .error m
    | .ok df => .ok (df, mkSummary df)

/-! ## Visualizations (`generate_visualizations`, src/autolysis.py
lines 69-93)

The body starts with `visualizations = []`, computes
`corr = df.corr(numeric_only=True)` — a k x k matrix over the k numeric
columns — renders it with `sns.heatmap`, saves it to
`output_dir / "correlation_heatmap.png"`, appends that path to the list,
and returns the list.  No other chart is ever drawn.  The heatmap call is
not total: with zero numeric columns `corr` is the empty 0x0 matrix and
seaborn's colormap scaling calls `np.nanmin` on a zero-size array, which
raises `ValueError` before `plt.savefig` runs or the path is appended;
with at least one numeric column the matrix is non-empty and the call
renders (an all-NaN matrix yields NaN bounds and a warning, not an
error).  `Except.error` models that uncaught exception; saving is a side
effect on the filesystem, tracked by the run model. -/

/-- The numeric columns that feed `df.corr(numeric_only=True)`. -/
def numericCols (df : DataFrame) : List Column :=
  df.cols.filter fun c => c.dtype = Dtype.numeric

/-- The error message of `np.nanmin` on the empty correlation matrix. -/
def heatmapEmptyError : String :=
  "ValueError: zero-size array to reduction operation fmin which has no identity"

/-- The function `generate_visualizations` (src/autolysis.py
lines 69-93): the list of paths returned, or the `ValueError` that
`sns.heatmap` raises on the empty correlation matrix of a frame without
numeric columns. -/
def generate_visualizations (df : DataFrame) (output_dir : String) :
    Except String (List String) :=
  let visualizations : List String := []
  -- corr = df.corr(numeric_only=True)
  if (numericCols df).isEmpty then
    -- sns.heatmap(corr, ...) on the 0x0 matrix raises before savefig
    .error heatmapEmptyError
  else
    -- sns.heatmap(corr, ...); plt.savefig(heatmap_path)
    let heatmap_path := output_dir ++ "/correlation_heatmap.png"
    let visualizations := visualizations ++ [heatmap_path]
    .ok visualizations

/-! ## README generation (`generate_readme`, src/autolysis.py
lines 95-115)

The function writes `output_dir / "README.md"` line by line: a title, a
summary header, the comma-joined column list, one `- col: n` line per
missing-value entry, a visualizations header, and one
`![Visualization](name)` image reference per given path, using
`image_path.name` (the final path component).  We model the written text
as its list of lines (the written string split at newlines).  Note that
`generate_readme` takes only the summary, the image paths and the output
directory: the narrative produced by `query_llm` is not a parameter. -/

/-- Split a character list at every occurrence of a separator (the
single-character case of `String.splitOn`: `splitOnChar '/' "a//b"` is
`["a", "", "b"]`). -/
def splitOnChar (sep : Char) : List Char → List (List Char)
  | [] => [[]]
  | c :: rest =>
    let r := splitOnChar sep rest
    if c = sep then [] :: r
    else
      match r with
      | [] => [[c]]
      | x :: xs => (c :: x) :: xs

/-- Python `Path.name`: the final component of a `/`-separated path. -/
def pathName (p : String) : String :=
  String.mk ((splitOnChar '/' p.data).getLastD p.data)

/-- Python `Path.stem`: the final path component without its last suffix (a name
whose only dot is leading, like `.bashrc`, keeps it). -/
def stem (p : String) : String :=
  let n := (splitOnChar '/' p.data).getLastD p.data
  match splitOnChar '.' n with
  | [] => String.mk n
  | [_] => String.mk n
  | first :: rest =>
    if first.isEmpty && rest.length == 1 then String.mk n
    else String.mk (List.intercalate ['.'] ((first :: rest).dropLast))

/-- The literal prefix of every image-reference line the writer emits. -/
def imageRefMarker : String := "![Visualization]("

/-- A line of the report is an image reference when it starts with the
image-reference marker. -/
def isImageRefLine (l : String) : Bool :=
  imageRefMarker.data.isPrefixOf l.data

/-- The referenced filename of an image-reference line: what stands
between the marker and the closing parenthesis. -/
def imageRefName (l : String) : String :=
  String.mk ((l.data.drop imageRefMarker.data.length).dropLast)

/-- The set (as an ordered list) of image filenames a report references:
the extracted names of its image-reference lines. -/
def imageRefs (lines : List String) : List String :=
  (lines.filter isImageRefLine).map imageRefName

/-- The image-reference line written for one artifact path
(src/autolysis.py line 115): `![Visualization]({image_path.name})`. -/
def imageRefLine (p : String) : String :=
  imageRefMarker ++ pathName p ++ ")"

/-- The lines of the `### Visualizations` section body: each image
reference followed by the blank line its `\n\n` leaves. -/
def visualizationLines (image_paths : List String) : List String :=
  (image_paths.map fun p => [imageRefLine p, ""]).flatten

/-- The lines `generate_readme` writes before the image references:
title, column list, and missing-value counts
(src/autolysis.py lines 107-113). -/
def summaryLines (s : Summary) : List String :=
  ["# Automated Analysis", "",
   "## Summary",
   "### Columns:",
   String.intercalate ", " s.columns, "",
   "### Missing Values:"]
  ++ (s.missing_values.map fun p => "- " ++ p.1 ++ ": " ++ toString p.2)
  ++ ["", "### Visualizations"]

/-- The function `generate_readme` (src/autolysis.py lines 95-115): the lines of the
written `README.md`. -/
def generate_readme_lines (s : Summary) (image_paths : List String) :
    List String :=
  summaryLines s ++ visualizationLines image_paths

/-! ## The narration call (`query_llm`, src/autolysis.py lines 117-147)

`query_llm` posts the serialized summary to the completion endpoint with
a 30-second timeout and evaluates
`response.raise_for_status()` followed by
`response.json()['choices'][0]['message']['content']`.  `httpx.post`
raises `httpx.RequestError` on any transport failure (connection error,
timeout, ...); `raise_for_status` raises `httpx.HTTPStatusError` on any
non-2xx status; `.json()` raises on an unparseable body; the subscript
chain raises `KeyError`/`IndexError`/`TypeError` on a body of the wrong
shape.  All of these are `Exception`s and all three `except` arms funnel
to the same `return` of the fallback string, so `query_llm` is a total
function of the HTTP outcome. -/

/-- An abstract JSON value, for the response body. -/
inductive Json
  | str (s : String)
  | num (n : Int)
  | arr (xs : List Json)
  | obj (fields : List (String × Json))
  | null

/-- Subscripting `j[k]` on a JSON value: `some` when `j` is an object with field `k`
(anything else raises in Python, modelled as `none`). -/
def Json.getField? : Json → String → Option Json
  | .obj fs, k => fs.lookup k
  | _, _ => none

/-- Subscripting `j[i]` on a JSON value: `some` when `j` is an array long enough. -/
def Json.getIdx? : Json → Nat → Option Json
  | .arr xs, i => xs.get? i
  | _, _ => none

/-- The subscript chain `body['choices'][0]['message']['content']`:
`none` models a raised `KeyError`/`IndexError`/`TypeError`. -/
def extractContent (body : Json) : Option Json :=
  match body.getField? "choices" with
  | none => none
  | some choices =>
    match choices.getIdx? 0 with
    | none => none
    | some first =>
      match first.getField? "message" with
      | none => none
      | some message => message.getField? "content"

/-- The result of the `httpx.post` call: a transport failure
(`httpx.RequestError`, including timeouts), or a response carrying a
status code and a body (`none` for a body `.json()` cannot parse). -/
inductive HttpOutcome
  | transportError (msg : String)
  | response (status : Nat) (body : Option Json)

/-- The fixed fallback string of `query_llm` (src/autolysis.py
line 147). -/
def fallbackNarrative : String :=
  "Narrative generation failed due to an error."

/-- The function `query_llm` (src/autolysis.py lines 117-147) as a function of the
HTTP outcome.  `raise_for_status` passes exactly the 2xx statuses
(httpx raises for informational, redirect, client-error and server-error
codes alike).  The extracted content is returned as-is — Python does not
check that it is a string — hence the `Json` result type. -/
def query_llm (o : HttpOutcome) : Json :=
  match o with
  | .transportError _ => .str fallbackNarrative
  | .response status body =>
    if 200 ≤ status && status < 300 then
      match body with
      | none => .str fallbackNarrative
      | some j =>
        match extractContent j with
        | none => .str fallbackNarrative
        | some content => content
    else .str fallbackNarrative

/-! ## The entry point (`main`, src/autolysis.py lines 149-176)

`main` checks `len(sys.argv) != 2`, prints usage and exits with status 1
on a mismatch; otherwise it derives `output_dir` from the dataset stem,
creates the directory, calls `load_data` (a raised exception aborts the
run), `analyze_dataset`, `generate_visualizations` (writing the chart,
or raising before any write on a frame without numeric columns),
`query_llm`, and finally `generate_readme` — note that the `insights`
value is bound but never passed on.  The run model takes the environment
(argv, file contents, parse outcome, HTTP outcome) as input and returns
the control outcome together with the filesystem effects performed. -/

/-- The input file as `open` sees it: missing (raising
`FileNotFoundError`) or present with some byte contents. -/
inductive FileInput
  | missing
  | present (bytes : List Nat)

/-- The environment of one invocation: the full `sys.argv` (the script
name is `argv[0]`), the input file, the `pd.read_csv` outcome, and the
HTTP outcome of the narration call. -/
structure RunInput where
  argv : List String
  file : FileInput
  parse : CsvParse
  http : HttpOutcome

/-- How the process ends: the usage `sys.exit(1)`, an uncaught exception,
or a normal completion. -/
inductive RunOutcome
  | usageExit (code : Nat)
  | exception (msg : String)
  | success
deriving DecidableEq

/-- The filesystem effects of a run: directories created, chart files
written, and the README (path and lines) if written. -/
structure RunState where
  dirsCreated : List String
  imagesWritten : List String
  readmeWritten : Option (String × List String)
deriving DecidableEq

/-- The function `main` (src/autolysis.py lines 149-176). -/
def runMain (inp : RunInput) : RunOutcome × RunState :=
  if inp.argv.length ≠ 2 then
    -- print usage; sys.exit(1): nothing has been created or written
    (.usageExit 1, ⟨[], [], none⟩)
  else
    let csv_file := (inp.argv.drop 1).headD ""
    let dataset_name := stem csv_file
    let output_dir := dataset_name
    -- create_directory(output_dir)
    let st0 : RunState := ⟨[output_dir], [], none⟩
    match inp.file with
    | .missing => (.exception "FileNotFoundError", st0)
    | .present bytes =>
      -- encoding = load_data(csv_file)
      match load_data bytes with
      | none => (.exception "ValueError: could not decode", st0)
      | some _ =>
        -- df, summary = analyze_dataset(csv_file)
        match analyze_dataset bytes inp.parse with
        | .error m => (.exception m, st0)
        | .ok (df, summary) =>
          -- image_paths = generate_visualizations(df, output_dir):
          -- the heatmap call may raise before the chart is saved
          match generate_visualizations df output_dir with
          | .error m => (.exception m, st0)
          | .ok image_paths =>
            let st1 : RunState := { st0 with imagesWritten := image_paths }
            -- insights = query_llm(summary): bound, then never used again
            let _insights := query_llm inp.http
            -- generate_readme(summary, image_paths, output_dir)
            let readme := generate_readme_lines summary image_paths
            let st2 : RunState :=
              { st1 with readmeWritten := some (output_dir ++ "/README.md", readme) }
            (.success, st2)

/-- The string `sub` occurs as a contiguous substring of `l`. -/
def hasSubstring (l sub : String) : Bool :=
  (List.range (l.data.length + 1)).any fun i => sub.data.isPrefixOf (l.data.drop i)

end Autolysis

namespace Autolysis

/-! ## Theorems -/

/-- C4: for every file whose contents decode under at least one of the
four candidate encodings, `load_data` returns the first encoding in the
fixed priority order utf-8, latin1, ISO-8859-1, windows-1252 whose
full-file decode succeeds; and it raises its decode error exactly when
none of the four candidates succeeds. -/
theorem load_data_first_match (bs : List Nat) :
    (∀ e, load_data bs = some e →
      decodes e bs = true ∧ ∀ e', decodes e' bs = true → priority e ≤ priority e')
    ∧ (load_data bs = none ↔ ∀ e, decodes e bs = false) := by
  by_cases h : utf8Decodes bs = true
  · have hld : load_data bs = some Encoding.utf8 := by
      simp [load_data, tryEncodings, decodes, h]
    constructor
    · intro e he
      rw [hld] at he
      injection he with he'
      subst he'
      exact ⟨h, fun e' _ => Nat.zero_le _⟩
    · constructor
      · intro hn
        rw [hld] at hn
        exact absurd hn (by simp)
      · intro hall
        exact absurd (hall Encoding.utf8) (by simp [decodes, h])
  · have hld : load_data bs = some Encoding.latin1 := by
      simp [load_data, tryEncodings, decodes, h]
    constructor
    · intro e he
      rw [hld] at he
      injection he with he'
      subst he'
      refine ⟨rfl, fun e' he' => ?_⟩
      cases e' with
      | utf8 => exact absurd he' (by simp [decodes, h])
      | latin1 => exact Nat.le_refl _
      | iso88591 => exact by decide
      | windows1252 => exact by decide
    · constructor
      · intro hn
        rw [hld] at hn
        exact absurd hn (by simp)
      · intro hall
        exact absurd (hall Encoding.latin1) (by simp [decodes])

/-- Witness for C4 at the one-byte file `0xC3` (invalid UTF-8): latin1 is
returned and is minimal in priority among the successful decoders. -/
theorem load_data_first_match_witness :
    decodes Encoding.latin1 [0xC3] = true ∧
    ∀ e', decodes e' [0xC3] = true → priority Encoding.latin1 ≤ priority e' :=
  (load_data_first_match [0xC3]).1 Encoding.latin1 (by decide)

/-- C10: the failure branch of `load_data` is unreachable for readable
contents, because the second candidate latin1 decodes every byte
sequence; the result is always utf-8 or latin1, never ISO-8859-1 or
windows-1252 and never the raised `ValueError`. -/
theorem load_data_never_fails (bs : List Nat) :
    (load_data bs = some Encoding.utf8 ∨ load_data bs = some Encoding.latin1)
    ∧ load_data bs ≠ none
    ∧ load_data bs ≠ some Encoding.iso88591
    ∧ load_data bs ≠ some Encoding.windows1252 := by
  by_cases h : utf8Decodes bs = true
  · have hld : load_data bs = some Encoding.utf8 := by
      simp [load_data, tryEncodings, decodes, h]
    exact ⟨Or.inl hld, by simp [hld], by simp [hld], by simp [hld]⟩
  · have hld : load_data bs = some Encoding.latin1 := by
      simp [load_data, tryEncodings, decodes, h]
    exact ⟨Or.inr hld, by simp [hld], by simp [hld], by simp [hld]⟩

/-- A concrete data frame with one numeric column. -/
def dfNumeric : DataFrame :=
  ⟨[⟨"x", Dtype.numeric, [some "1", some "2"]⟩]⟩

/-- A data frame with no columns at all (a degenerate parse result):
zero numeric columns, so `df.corr` is the empty matrix. -/
def dfEmpty : DataFrame := ⟨[]⟩

/-- C9 counterexample: `generate_visualizations` does not return a path
list for every data frame — on a frame with zero numeric columns
`sns.heatmap` raises `ValueError` on the empty correlation matrix, so
the function raises and in particular does not return the one-element
heatmap list. -/
theorem generate_visualizations_not_total_cex :
    generate_visualizations dfEmpty "out" = Except.error heatmapEmptyError
    ∧ ¬ ∃ paths, generate_visualizations dfEmpty "out" = Except.ok paths := by
  refine ⟨rfl, ?_⟩
  rintro ⟨paths, h⟩
  rw [show generate_visualizations dfEmpty "out" = Except.error heatmapEmptyError
    from rfl] at h
  exact Except.noConfusion h

/-- C9 amended: for every data frame with at least one numeric column,
`generate_visualizations` returns exactly the single path
`output_dir / correlation_heatmap.png`, and no distribution chart and no
pairwise scatter grid is ever produced; with zero numeric columns the
function instead raises from the heatmap call and returns nothing. -/
theorem generate_visualizations_heatmap_only (df : DataFrame)
    (output_dir : String) (h : numericCols df ≠ []) :
    generate_visualizations df output_dir
      = Except.ok [output_dir ++ "/correlation_heatmap.png"] := by
  simp [generate_visualizations, h]

/-- Witness for the amended C9 on a one-numeric-column frame. -/
theorem generate_visualizations_heatmap_only_witness :
    generate_visualizations dfNumeric "out"
      = Except.ok ["out/correlation_heatmap.png"] :=
  generate_visualizations_heatmap_only dfNumeric "out" (by decide)

/-- A concrete data frame with zero numeric columns. -/
def dfNoNumeric : DataFrame :=
  ⟨[⟨"name", Dtype.object, [some "alice", some "bob"]⟩]⟩

/-- C3 counterexample: on a dataset with zero numeric columns the
Visualizer does fail — `sns.heatmap` raises `ValueError` on the empty
0x0 correlation matrix before any path is appended — refuting that the
unproducible charts are skipped and the run continues. -/
theorem generate_visualizations_zero_numeric_cex :
    numericCols dfNoNumeric = [] ∧
    generate_visualizations dfNoNumeric "out"
      = Except.error heatmapEmptyError := by
  exact ⟨rfl, rfl⟩

/-- C3 amended: for every dataset with zero numeric columns,
`generate_visualizations` does fail rather than skip: the heatmap call
on the empty correlation matrix raises `ValueError` before any artifact
path is appended or any chart file is written, so no artifact list is
returned (and a fortiori zero correlation-heatmap and pairplot
artifacts are produced) and the exception aborts the run. -/
theorem generate_visualizations_zero_numeric (df : DataFrame)
    (output_dir : String) (h : numericCols df = []) :
    generate_visualizations df output_dir
      = Except.error heatmapEmptyError := by
  simp [generate_visualizations, h]

/-- Witness for the amended C3 on a concrete object-only data frame. -/
theorem generate_visualizations_zero_numeric_witness :
    generate_visualizations dfNoNumeric "out"
      = Except.error heatmapEmptyError :=
  generate_visualizations_zero_numeric dfNoNumeric "out" (by decide)

/-- In any column, null and non-null entries partition the rows. -/
theorem countP_isNone_add_isSome (l : List (Option String)) :
    l.countP (fun v => v.isNone) + l.countP (fun v => v.isSome) = l.length := by
  induction l with
  | nil => rfl
  | cons a t ih => cases a <;> simp [List.countP_cons] <;> omega

/-- C6: for every loaded data frame and every column of it (with the
column's length being the frame's row count, as `pd.read_csv`
guarantees), the missing-value count recorded in the summary dictionary
equals the row count minus the column's number of non-null entries. -/
theorem summary_missing_value_counts (df : DataFrame) (c : Column)
    (hc : c ∈ df.cols) (hlen : c.entries.length = df.nrows) :
    (c.name, df.nrows - nonNull c) ∈ (mkSummary df).missing_values := by
  have h1 : missingCount c = df.nrows - nonNull c := by
    have h2 := countP_isNone_add_isSome c.entries
    unfold missingCount nonNull
    omega
  have h3 : (c.name, missingCount c) ∈ (mkSummary df).missing_values :=
    List.mem_map_of_mem _ hc
  rw [h1] at h3
  exact h3

/-- Witness for C6 on a two-column frame with 3 rows: column `b` has one
non-null entry, and the summary records `3 - 1 = 2` missing values. -/
theorem summary_missing_value_counts_witness :
    ("b", DataFrame.nrows ⟨[⟨"a", Dtype.numeric, [some "1", none, some "2"]⟩,
        ⟨"b", Dtype.object, [none, none, some "x"]⟩]⟩
      - nonNull ⟨"b", Dtype.object, [none, none, some "x"]⟩)
    ∈ (mkSummary ⟨[⟨"a", Dtype.numeric, [some "1", none, some "2"]⟩,
        ⟨"b", Dtype.object, [none, none, some "x"]⟩]⟩).missing_values :=
  summary_missing_value_counts
    ⟨[⟨"a", Dtype.numeric, [some "1", none, some "2"]⟩,
      ⟨"b", Dtype.object, [none, none, some "x"]⟩]⟩
    ⟨"b", Dtype.object, [none, none, some "x"]⟩ (by decide) (by decide)

/-- C2: `query_llm` never lets an exception of the narration request
escape (it is a total function of the HTTP outcome): a transport error,
a non-2xx status, an unparseable body, and a body without the
`choices[0].message.content` chain all return exactly the fixed fallback
string, while a well-formed 2xx response returns the first completion's
message content. -/
theorem query_llm_fallback_policy :
    (∀ m, query_llm (HttpOutcome.transportError m) = Json.str fallbackNarrative)
    ∧ (∀ st b, (st < 200 ∨ 300 ≤ st) →
        query_llm (HttpOutcome.response st b) = Json.str fallbackNarrative)
    ∧ (∀ st, 200 ≤ st → st < 300 →
        query_llm (HttpOutcome.response st none) = Json.str fallbackNarrative)
    ∧ (∀ st j, 200 ≤ st → st < 300 → extractContent j = none →
        query_llm (HttpOutcome.response st (some j)) = Json.str fallbackNarrative)
    ∧ (∀ st j v, 200 ≤ st → st < 300 → extractContent j = some v →
        query_llm (HttpOutcome.response st (some j)) = v) := by
  refine ⟨fun _ => rfl, ?_, ?_, ?_, ?_⟩
  · intro st b h
    have hc : (decide (200 ≤ st) && decide (st < 300)) = false := by
      rcases h with h | h <;> simp <;> omega
    simp [query_llm, hc]
  · intro st h1 h2
    have hc : (decide (200 ≤ st) && decide (st < 300)) = true := by
      simp [h1, h2]
    simp [query_llm, hc]
  · intro st j h1 h2 hx
    have hc : (decide (200 ≤ st) && decide (st < 300)) = true := by
      simp [h1, h2]
    simp [query_llm, hc, hx]
  · intro st j v h1 h2 hx
    have hc : (decide (200 ≤ st) && decide (st < 300)) = true := by
      simp [h1, h2]
    simp [query_llm, hc, hx]

/-- Witness for C2: an HTTP 500 yields the fallback string, and a
well-formed 200 response yields its content. -/
theorem query_llm_fallback_policy_witness :
    query_llm (HttpOutcome.response 500 none) = Json.str fallbackNarrative ∧
    query_llm (HttpOutcome.response 200 (some (Json.obj [("choices",
        Json.arr [Json.obj [("message",
          Json.obj [("content", Json.str "ok")])]])])))
      = Json.str "ok" :=
  ⟨query_llm_fallback_policy.2.1 500 none (by omega),
   query_llm_fallback_policy.2.2.2.2 200
     (Json.obj [("choices", Json.arr [Json.obj [("message",
       Json.obj [("content", Json.str "ok")])]])])
     (Json.str "ok") (by omega) (by omega) rfl⟩

/-- A list is a prefix (in the Boolean sense) of itself followed by
anything. -/
theorem isPrefixOf_append_self (a b : List Char) :
    a.isPrefixOf (a ++ b) = true := by
  induction a with
  | nil => simp [List.isPrefixOf]
  | cons x t ih => simp [List.cons_append, List.isPrefixOf, ih]

/-- Dropping the length of the left part of an append leaves the right
part. -/
theorem drop_length_append (a b : List Char) : (a ++ b).drop a.length = b := by
  simp

/-- Dropping the last element of `a ++ [c]` leaves `a`. -/
theorem dropLast_append_single (a : List Char) (c : Char) :
    (a ++ [c]).dropLast = a := by
  simp

/-- Every emitted image-reference line is recognized as one. -/
theorem isImageRefLine_imageRefLine (p : String) :
    isImageRefLine (imageRefLine p) = true := by
  unfold isImageRefLine imageRefLine
  rw [String.data_append, String.data_append, List.append_assoc]
  exact isPrefixOf_append_self _ _

/-- The name extracted from an emitted image-reference line is the
artifact's filename. -/
theorem imageRefName_imageRefLine (p : String) :
    imageRefName (imageRefLine p) = pathName p := by
  unfold imageRefName imageRefLine
  rw [String.data_append, String.data_append, List.append_assoc,
    drop_length_append]
  have h : (")" : String).data = [')'] := rfl
  rw [h, dropLast_append_single]

/-- Extracting references commutes with prepending one emitted
image-reference line and its following blank line. -/
theorem imageRefs_cons_pair (l : List String) (p : String) :
    imageRefs (imageRefLine p :: "" :: l) = pathName p :: imageRefs l := by
  have h2 : isImageRefLine "" = false := by decide
  unfold imageRefs
  simp [List.filter_cons, isImageRefLine_imageRefLine, h2,
    imageRefName_imageRefLine]

/-- The visualization section's references are exactly the given
artifact filenames, in order. -/
theorem imageRefs_visualizationLines (ps : List String) :
    imageRefs (visualizationLines ps) = ps.map pathName := by
  induction ps with
  | nil => rfl
  | cons p t ih =>
    have hv : visualizationLines (p :: t)
        = imageRefLine p :: "" :: visualizationLines t := by
      simp [visualizationLines]
    rw [hv, imageRefs_cons_pair, ih, List.map_cons]

/-- C5: the report's image references are exactly the artifact paths
handed to the report writer — one reference per returned path (by its
filename, in order) and no reference to anything else — provided none of
the summary-derived lines itself begins with the image-reference marker
(true of every header the writer emits; a column name would have to
start with the literal text `![Visualization](` to break it). -/
theorem readme_image_refs_exact (s : Summary) (ps : List String)
    (h : ∀ l ∈ summaryLines s, isImageRefLine l = false) :
    imageRefs (generate_readme_lines s ps) = ps.map pathName := by
  unfold generate_readme_lines imageRefs
  rw [List.filter_append]
  have h0 : (summaryLines s).filter isImageRefLine = [] := by
    rw [List.filter_eq_nil_iff]
    intro a ha
    simp [h a ha]
  rw [h0, List.nil_append]
  exact imageRefs_visualizationLines ps

/-- Witness for C5 on a concrete two-column summary and the heatmap
artifact list. -/
theorem readme_image_refs_exact_witness :
    imageRefs (generate_readme_lines ⟨["a", "b"], [("a", 0), ("b", 1)]⟩
        ["data/correlation_heatmap.png"])
      = ["data/correlation_heatmap.png"].map pathName :=
  readme_image_refs_exact ⟨["a", "b"], [("a", 0), ("b", 1)]⟩
    ["data/correlation_heatmap.png"] (by decide)

/-- C8: an invocation with an argument count different from one
positional argument prints usage and exits with status 1, before any
directory creation, loading, analysis, network call or file write. -/
theorem usage_exit_no_processing (inp : RunInput) (h : inp.argv.length ≠ 2) :
    runMain inp = (RunOutcome.usageExit 1, ⟨[], [], none⟩) := by
  unfold runMain
  rw [if_pos h]

/-- Witness for C8: a run with no positional argument. -/
theorem usage_exit_no_processing_witness :
    runMain ⟨["autolysis.py"], FileInput.missing, CsvParse.ok ⟨[]⟩,
        HttpOutcome.response 200 none⟩
      = (RunOutcome.usageExit 1, ⟨[], [], none⟩) :=
  usage_exit_no_processing _ (by decide)

/-- C7: when the input file is missing (the `open` raises) or its parse
fails (`pd.read_csv` raises on a malformed or empty file), the run ends
in an uncaught exception and writes neither a chart image nor a
README.md. -/
theorem abort_writes_nothing (inp : RunInput)
    (hargv : inp.argv.length = 2)
    (hfail : inp.file = FileInput.missing
      ∨ ∃ m, inp.parse = CsvParse.parseError m) :
    (∃ m, (runMain inp).1 = RunOutcome.exception m)
    ∧ (runMain inp).2.imagesWritten = []
    ∧ (runMain inp).2.readmeWritten = none := by
  rcases hfail with hf | ⟨m, hp⟩
  · simp [runMain, hf, hargv]
  · cases hfile : inp.file with
    | missing => simp [runMain, hfile, hargv]
    | present bytes =>
      cases hl : load_data bytes with
      | none => simp [runMain, hfile, hargv, hl]
      | some e => simp [runMain, hfile, hargv, hl, analyze_dataset, hp]

/-- Witness for C7: a missing input file aborts with nothing written. -/
theorem abort_writes_nothing_witness :
    (∃ m, (runMain ⟨["autolysis.py", "data.csv"], FileInput.missing,
        CsvParse.ok ⟨[]⟩, HttpOutcome.response 200 none⟩).1
      = RunOutcome.exception m)
    ∧ (runMain ⟨["autolysis.py", "data.csv"], FileInput.missing,
        CsvParse.ok ⟨[]⟩, HttpOutcome.response 200 none⟩).2.imagesWritten = []
    ∧ (runMain ⟨["autolysis.py", "data.csv"], FileInput.missing,
        CsvParse.ok ⟨[]⟩, HttpOutcome.response 200 none⟩).2.readmeWritten = none :=
  abort_writes_nothing _ rfl (Or.inl rfl)

/-- The data frame `pd.read_csv` yields for the two-column CSV
`a,b\n1,2\n`. -/
def bugParseDf : DataFrame :=
  ⟨[⟨"a", Dtype.numeric, [some "1"]⟩, ⟨"b", Dtype.numeric, [some "2"]⟩]⟩

/-- A run of `python autolysis.py data.csv` whose narrative request gets
an HTTP 500, so `query_llm` returns the fallback string. -/
def bugInput : RunInput :=
  { argv := ["autolysis.py", "data.csv"]
    file := .present [0x61, 0x2C, 0x62, 0x0A, 0x31, 0x2C, 0x32, 0x0A]
    parse := .ok bugParseDf
    http := .response 500 none }

/-- C1: the run completes and `query_llm` produces the fallback
narrative, yet the written README.md contains the narrative nowhere —
no line of it even contains the fallback string as a substring — and its
content is the same whatever the HTTP outcome: `main` binds
`insights = query_llm(summary)` and then never passes it to
`generate_readme`, which has no narrative parameter. -/
theorem readme_lacks_narrative_section :
    query_llm bugInput.http = Json.str fallbackNarrative
    ∧ (runMain bugInput).1 = RunOutcome.success
    ∧ (runMain bugInput).2.readmeWritten
        = some ("data/README.md",
            generate_readme_lines (mkSummary bugParseDf)
              ["data/correlation_heatmap.png"])
    ∧ (generate_readme_lines (mkSummary bugParseDf)
          ["data/correlation_heatmap.png"]).all
        (fun l => !(hasSubstring l fallbackNarrative)) = true
    ∧ ∀ h' : HttpOutcome,
        (runMain { bugInput with http := h' }).2.readmeWritten
          = (runMain bugInput).2.readmeWritten := by
  refine ⟨rfl, by decide, by decide, by decide, fun h' => rfl⟩

end Autolysis
